import Mathlib

/-!
Shallow embedding of `src/result.rs` of keepass-rs: the three-tier error
taxonomy (`CryptoError`, `DatabaseIntegrityError`, `Error`), its `Display`
rendering, its `std::error::Error::source` causal-chain accessors, and the
`From` tier-lifting conversions.

External error types from collaborator crates (`argon2::Error`,
`hmac::crypto_mac::InvalidKeyLength`, `block_modes::InvalidKeyIvLength`,
`stream_cipher::InvalidKeyNonceLength`, `block_modes::BlockModeError`,
`xml::reader::Error`, `base64::DecodeError`, `std::str::Utf8Error`,
`std::io::Error`) are opaque to this module; they are modelled as carriers
of their `Display` text and (where the derived `Debug` of `CryptoError`
prints them) their `Debug` text.
-/

namespace KeepassResult

/-- Model of `argon2::Error`: opaque external error, carrying its Display
and Debug renderings. -/
structure Argon2Error where
  displayText : String
  debugText : String
deriving DecidableEq

/-- Model of `hmac::crypto_mac::InvalidKeyLength`. -/
structure HmacInvalidKeyLength where
  displayText : String
  debugText : String
deriving DecidableEq

/-- Model of `block_modes::InvalidKeyIvLength`. -/
structure BlockModesInvalidKeyIvLength where
  displayText : String
  debugText : String
deriving DecidableEq

/-- Model of `stream_cipher::InvalidKeyNonceLength`. -/
structure StreamCipherInvalidKeyNonceLength where
  displayText : String
  debugText : String
deriving DecidableEq

/-- Model of `block_modes::BlockModeError`. -/
structure BlockModesBlockModeError where
  displayText : String
  debugText : String
deriving DecidableEq

/-- Model of `xml::reader::Error`. -/
structure XmlReaderError where
  displayText : String
deriving DecidableEq

/-- Model of `base64::DecodeError`. -/
structure Base64DecodeError where
  displayText : String
deriving DecidableEq

/-- Model of `std::str::Utf8Error`. -/
structure Utf8Error where
  displayText : String
deriving DecidableEq

/-- Model of `std::io::Error`. -/
structure IoError where
  displayText : String
deriving DecidableEq

/-- `enum CryptoError` (result.rs lines 3-20). -/
inductive CryptoError where
  | Argon2 (e : Argon2Error)
  | InvalidKeyLength (e : HmacInvalidKeyLength)
  | InvalidKeyIvLength (e : BlockModesInvalidKeyIvLength)
  | InvalidKeyNonceLength (e : StreamCipherInvalidKeyNonceLength)
  | BlockMode (e : BlockModesBlockModeError)
deriving DecidableEq

/-- `enum DatabaseIntegrityError` (result.rs lines 22-86).
Machine integers (`usize`, `u8`, `u16`, `u32`) appear only as format
arguments, never in arithmetic, so they are embedded as `Nat`;
`Vec<u8>` as `List Nat`; `String` as `String`. -/
inductive DatabaseIntegrityError where
  | Compression
  | Crypto (e : CryptoError)
  | HeaderHashMismatch
  | BlockHashMismatch (block_index : Nat)
  | InvalidKDBXIdentifier
  | InvalidKDBXVersion (version : Nat) (file_major_version : Nat) (file_minor_version : Nat)
  | InvalidOuterHeaderEntry (entry_type : Nat)
  | IncompleteOuterHeader (missing_field : String)
  | InvalidInnerHeaderEntry (entry_type : Nat)
  | IncompleteInnerHeader (missing_field : String)
  | InvalidKDFVersion (version : Nat)
  | InvalidKDFUUID (uuid : List Nat)
  | MissingKDFParams (key : String)
  | MistypedKDFParam (key : String)
  | InvalidOuterCipherID (cid : List Nat)
  | InvalidInnerCipherID (cid : Nat)
  | InvalidCompressionSuite (cid : Nat)
  | InvalidVariantDictionaryVersion (version : Nat)
  | InvalidVariantDictionaryValueType (value_type : Nat)
  | XMLParsing (e : XmlReaderError)
  | Base64 (e : Base64DecodeError)
  | UTF8 (e : Utf8Error)
deriving DecidableEq

/-- `enum Error` (result.rs lines 88-94). -/
inductive Error where
  | Io (e : IoError)
  | DatabaseIntegrity (e : DatabaseIntegrityError)
  | IncorrectKey
  | InvalidKeyFile
deriving DecidableEq

/-- Rust `{:0x}` / `{:x?}` formatting of an unsigned integer: lowercase
hexadecimal digits, no padding (the `0` flag has no effect without a
width). -/
def hexStr (n : Nat) : String :=
  String.mk (Nat.toDigits 16 n)

/-- Rust `{:0x?}` formatting of a `Vec<u8>`: the elements in lowercase
hexadecimal, comma-space separated, in square brackets. -/
def hexBytesDebug (bs : List Nat) : String :=
  "[" ++ String.intercalate ", " (bs.map hexStr) ++ "]"

/-- Derived `Debug` rendering of `CryptoError` (from `#[derive(Debug)]`),
used by the `Display` arm for `DatabaseIntegrityError::Crypto`, which
formats the inner value with `{:?}`. -/
def CryptoError.debugRepr : CryptoError → String
  | .Argon2 e => "Argon2 \x7b e: " ++ e.debugText ++ " \x7d"
  | .InvalidKeyLength e => "InvalidKeyLength \x7b e: " ++ e.debugText ++ " \x7d"
  | .InvalidKeyIvLength e => "InvalidKeyIvLength \x7b e: " ++ e.debugText ++ " \x7d"
  | .InvalidKeyNonceLength e => "InvalidKeyNonceLength \x7b e: " ++ e.debugText ++ " \x7d"
  | .BlockMode e => "BlockMode \x7b e: " ++ e.debugText ++ " \x7d"

/-- The match body of `impl Display for CryptoError` (result.rs lines
200-217). -/
def CryptoError.displayBody : CryptoError → String
  | .Argon2 e => "Problem deriving key with Argon2: " ++ e.displayText
  | .InvalidKeyIvLength e => "Invalid key / IV length: " ++ e.displayText
  | .InvalidKeyLength e => "Invalid key length: " ++ e.displayText
  | .InvalidKeyNonceLength e => "Invalid key / nonce length: " ++ e.displayText
  | .BlockMode e => "Block mode error: " ++ e.displayText

/-- `impl Display for CryptoError`: `write!(f, "Crypto Error: {}", ...)`. -/
def CryptoError.display (c : CryptoError) : String :=
  "Crypto Error: " ++ c.displayBody

/-- The match body of `impl Display for DatabaseIntegrityError`
(result.rs lines 97-182). -/
def DatabaseIntegrityError.displayBody : DatabaseIntegrityError → String
  | .Compression => "(De)compression error"
  | .Crypto e => "Cryptography error: " ++ e.debugRepr
  | .HeaderHashMismatch => "Hash mismatch when verifying header"
  | .BlockHashMismatch block_index =>
      "Error when verifying integrity of block " ++ toString block_index
  | .InvalidKDBXIdentifier => "Invalid KDBX Identifier"
  | .InvalidKDBXVersion version file_major_version file_minor_version =>
      "Invalid KDBX Version (version: " ++ (hexStr version ++ (" file version " ++
        (toString file_major_version ++ ("." ++ (toString file_minor_version ++ ")")))))
  | .InvalidOuterHeaderEntry entry_type =>
      "Encountered an invalid outer header entry with type " ++ toString entry_type
  | .InvalidInnerHeaderEntry entry_type =>
      "Encountered an invalid inner header entry with type " ++ toString entry_type
  | .IncompleteOuterHeader missing_field =>
      "Missing field in outer header: " ++ missing_field
  | .IncompleteInnerHeader missing_field =>
      "Missing field in inner header: " ++ missing_field
  | .MissingKDFParams key => "Missing field in KDF parameters: " ++ key
  | .MistypedKDFParam key => "KDF parameter " ++ (key ++ " has wrong type")
  | .InvalidKDFVersion version =>
      "Encountered an invalid KDF version: " ++ toString version
  | .InvalidKDFUUID uuid =>
      "Encountered an invalid KDF UUID: " ++ hexBytesDebug uuid
  | .InvalidOuterCipherID cid =>
      "Encountered an invalid outer cipher ID: " ++ hexBytesDebug cid
  | .InvalidInnerCipherID cid =>
      "Encountered an invalid inner cipher ID: " ++ toString cid
  | .InvalidCompressionSuite cid =>
      "Encountered an invalid compression suite ID: " ++ toString cid
  | .InvalidVariantDictionaryVersion version =>
      "Encountered a VariantDictionary with an invalid version: " ++ toString version
  | .InvalidVariantDictionaryValueType value_type =>
      "Encountered an invalid VariantDictionary value type: " ++ toString value_type
  | .XMLParsing e =>
      "Encountered an error when parsing the inner XML payload: " ++ e.displayText
  | .UTF8 e =>
      "Encountering an error when parsing an UTF-8 formatted string: " ++ e.displayText
  | .Base64 e =>
      "Encountered an error when parsing a base64-encoded string: " ++ e.displayText

/-- `impl Display for DatabaseIntegrityError`:
`write!(f, "Database integrity error: {}", ...)`. -/
def DatabaseIntegrityError.display (d : DatabaseIntegrityError) : String :=
  "Database integrity error: " ++ d.displayBody

/-- The match body of `impl Display for Error` (result.rs lines 184-198). -/
def Error.displayBody : Error → String
  | .Io e => "IO error: " ++ e.displayText
  | .IncorrectKey => "Incorrect key specified"
  | .InvalidKeyFile => "Keyfile format invalid"
  | .DatabaseIntegrity e => e.display

/-- `impl Display for Error`: `write!(f, "KDBX error: {}", ...)`. -/
def Error.display (e : Error) : String :=
  "KDBX error: " ++ e.displayBody

/-- A node of the `&dyn std::error::Error` causal chain: any value that a
`source` implementation in result.rs can return. -/
inductive Dyn where
  | crypto (c : CryptoError)
  | argon2 (e : Argon2Error)
  | keyIv (e : BlockModesInvalidKeyIvLength)
  | blockMode (e : BlockModesBlockModeError)
  | xmlErr (e : XmlReaderError)
  | base64Err (e : Base64DecodeError)
  | utf8Err (e : Utf8Error)
  | ioErr (e : IoError)
deriving DecidableEq

/-- `impl std::error::Error for CryptoError`, `fn source` (result.rs lines
219-230): the `InvalidKeyNonceLength` and `InvalidKeyLength` arms return
`None` because their cause types do not implement `std::error::Error`
(the TODO comments on lines 225-226). -/
def CryptoError.sourceDyn : CryptoError → Option Dyn
  | .Argon2 e => some (.argon2 e)
  | .InvalidKeyIvLength e => some (.keyIv e)
  | .InvalidKeyNonceLength _ => none
  | .InvalidKeyLength _ => none
  | .BlockMode e => some (.blockMode e)

/-- `impl std::error::Error for DatabaseIntegrityError`, `fn source`
(result.rs lines 232-243). -/
def DatabaseIntegrityError.sourceDyn : DatabaseIntegrityError → Option Dyn
  | .Crypto e => some (.crypto e)
  | .XMLParsing e => some (.xmlErr e)
  | .Base64 e => some (.base64Err e)
  | .UTF8 e => some (.utf8Err e)
  | _ => none

/-- `impl std::error::Error for Error`, `fn source` (result.rs lines
245-254): the `DatabaseIntegrity` arm delegates to the wrapped value's own
`source`, it does not return the wrapped value itself. -/
def Error.sourceDyn : Error → Option Dyn
  | .Io e => some (.ioErr e)
  | .DatabaseIntegrity e => e.sourceDyn
  | .IncorrectKey => none
  | .InvalidKeyFile => none

/-- `source` on a chain node. `CryptoError` nodes use their own `source`
implementation. Modelled from the spec: the external primitive error types
(argon2, key/IV length, block mode, XML, base64, UTF-8, IO) are leaf
failures with no further cause — their crates' `source` implementations
are outside this repository, and the spec states the chain "terminates at
a leaf with no further cause". -/
def Dyn.sourceDyn : Dyn → Option Dyn
  | .crypto c => c.sourceDyn
  | .argon2 _ => none
  | .keyIv _ => none
  | .blockMode _ => none
  | .xmlErr _ => none
  | .base64Err _ => none
  | .utf8Err _ => none
  | .ioErr _ => none

/-- The list of causes reached by repeatedly following `source`, fuelled
(every chain in this module has length at most 2). -/
def sourceChain : Nat → Option Dyn → List Dyn
  | _, none => []
  | 0, some _ => []
  | Nat.succ fuel, some d => d :: sourceChain fuel d.sourceDyn

/-- The full causal chain traversable from an `Error` value. -/
def Error.causeChain (e : Error) : List Dyn :=
  sourceChain 8 e.sourceDyn

/-- The number of traversable causes starting from an `Error` value. -/
def Error.causeCount (e : Error) : Nat :=
  e.causeChain.length

/-- `impl From<DatabaseIntegrityError> for Error` (result.rs lines
256-261). -/
def Error.fromDatabaseIntegrityError (e : DatabaseIntegrityError) : Error :=
  .DatabaseIntegrity e

/-- `impl From<CryptoError> for DatabaseIntegrityError` (result.rs lines
263-268). -/
def DatabaseIntegrityError.fromCryptoError (e : CryptoError) : DatabaseIntegrityError :=
  .Crypto e

/-- `impl From<std::io::Error> for Error` (result.rs lines 270-275). -/
def Error.fromIoError (e : IoError) : Error :=
  .Io e

/-- `impl From<argon2::Error> for CryptoError` (result.rs lines 277-282). -/
def CryptoError.fromArgon2Error (e : Argon2Error) : CryptoError :=
  .Argon2 e

/-- `impl From<hmac::crypto_mac::InvalidKeyLength> for CryptoError`
(result.rs lines 284-289). -/
def CryptoError.fromInvalidKeyLength (e : HmacInvalidKeyLength) : CryptoError :=
  .InvalidKeyLength e

/-- `impl From<stream_cipher::InvalidKeyNonceLength> for CryptoError`
(result.rs lines 291-296). -/
def CryptoError.fromInvalidKeyNonceLength (e : StreamCipherInvalidKeyNonceLength) : CryptoError :=
  .InvalidKeyNonceLength e

/-- `impl From<block_modes::InvalidKeyIvLength> for CryptoError`
(result.rs lines 298-303). -/
def CryptoError.fromInvalidKeyIvLength (e : BlockModesInvalidKeyIvLength) : CryptoError :=
  .InvalidKeyIvLength e

/-- `impl From<block_modes::BlockModeError> for CryptoError`
(result.rs lines 305-310). -/
def CryptoError.fromBlockModeError (e : BlockModesBlockModeError) : CryptoError :=
  .BlockMode e

/-- `impl From<xml::reader::Error> for DatabaseIntegrityError`
(result.rs lines 312-317). -/
def DatabaseIntegrityError.fromXmlReaderError (e : XmlReaderError) : DatabaseIntegrityError :=
  .XMLParsing e

/-- `impl From<std::str::Utf8Error> for DatabaseIntegrityError`
(result.rs lines 319-324). -/
def DatabaseIntegrityError.fromUtf8Error (e : Utf8Error) : DatabaseIntegrityError :=
  .UTF8 e

/-- `impl From<base64::DecodeError> for DatabaseIntegrityError`
(result.rs lines 326-331). -/
def DatabaseIntegrityError.fromBase64DecodeError (e : Base64DecodeError) : DatabaseIntegrityError :=
  .Base64 e

/-- Whether the cause type retained by a `CryptoError` variant implements
`std::error::Error`. Modelled from the code comments (result.rs lines
225-226): `hmac::crypto_mac::InvalidKeyLength` and
`stream_cipher::InvalidKeyNonceLength` do not implement it yet; the other
three cause types do (their values are returned as `&dyn Error`). -/
def CryptoError.causeImplsStdError : CryptoError → Bool
  | .Argon2 _ => true
  | .InvalidKeyIvLength _ => true
  | .InvalidKeyNonceLength _ => false
  | .InvalidKeyLength _ => false
  | .BlockMode _ => true

/-- Does the character list `pat` occur as a leading run of `hay`? -/
def startsList : List Char → List Char → Bool
  | [], _ => true
  | _ :: _, [] => false
  | p :: ps, h :: hs => p == h && startsList ps hs

/-- Does the character list `pat` occur contiguously anywhere in `hay`? -/
def infixList (pat : List Char) : List Char → Bool
  | [] => startsList pat []
  | h :: hs => startsList pat (h :: hs) || infixList pat hs

/-- Substring test on strings, used to state "the rendered text contains
...". -/
def strContains (hay pat : String) : Bool :=
  infixList pat.data hay.data

theorem startsList_append (p h b : List Char) (hp : startsList p h = true) :
    startsList p (h ++ b) = true := by
  induction p generalizing h with
  | nil => simp [startsList]
  | cons c cs ih =>
    cases h with
    | nil => simp [startsList] at hp
    | cons x xs =>
      simp [startsList] at hp ⊢
      exact ⟨hp.1, ih xs hp.2⟩

theorem startsList_refl_append (p rest : List Char) :
    startsList p (p ++ rest) = true := by
  induction p with
  | nil => simp [startsList]
  | cons c cs ih => simp [startsList, ih]

theorem infixList_of_startsList (p h : List Char) (hp : startsList p h = true) :
    infixList p h = true := by
  cases h with
  | nil => simpa [infixList] using hp
  | cons x xs => simp [infixList, hp]

theorem infixList_append_left (a p h : List Char) (hp : infixList p h = true) :
    infixList p (a ++ h) = true := by
  induction a with
  | nil => simpa using hp
  | cons x xs ih => simp [infixList, ih]

theorem infixList_append_right (p h b : List Char) (hp : infixList p h = true) :
    infixList p (h ++ b) = true := by
  induction h with
  | nil =>
    cases p with
    | nil => exact infixList_of_startsList _ _ (by simp [startsList])
    | cons c cs => simp [infixList, startsList] at hp
  | cons x xs ih =>
    simp only [List.cons_append, infixList, Bool.or_eq_true] at hp ⊢
    cases hp with
    | inl hs => exact Or.inl (startsList_append _ _ _ hs)
    | inr hi => exact Or.inr (ih hi)

theorem strContains_refl (p : String) : strContains p p = true := by
  unfold strContains
  exact infixList_of_startsList _ _ (by simpa using startsList_refl_append p.data [])

theorem strContains_extend_left (a h p : String) (hc : strContains h p = true) :
    strContains (a ++ h) p = true := by
  unfold strContains at hc ⊢
  rw [String.data_append]
  exact infixList_append_left _ _ _ hc

theorem strContains_extend_right (h b p : String) (hc : strContains h p = true) :
    strContains (h ++ b) p = true := by
  unfold strContains at hc ⊢
  rw [String.data_append]
  exact infixList_append_right _ _ _ hc

theorem append_ne_empty_left (s t : String) (h : s.data ≠ []) : s ++ t ≠ "" := by
  intro heq
  apply h
  have h2 : s.data ++ t.data = ([] : List Char) := by
    simpa [String.data_append] using congrArg String.data heq
  exact (List.append_eq_nil.mp h2).1

theorem strContains_head (p b : String) : strContains (p ++ b) p = true :=
  strContains_extend_right _ _ _ (strContains_refl p)

theorem strContains_two_left (a b p : String) : strContains (a ++ (b ++ p)) p = true :=
  strContains_extend_left _ _ _ (strContains_extend_left _ _ _ (strContains_refl p))

/-- Claim C1, counterexample: for the `Error` value wrapping
`DatabaseIntegrityError::Crypto` around `CryptoError::InvalidKeyLength`,
the causal chain has exactly one traversable cause, not two, because
`CryptoError::source` returns `None` for that variant. -/
theorem claim_C1_counterexample :
    ¬ ((Error.DatabaseIntegrity (DatabaseIntegrityError.Crypto
        (CryptoError.InvalidKeyLength ⟨"invalid key length", "InvalidKeyLength"⟩))).causeCount = 2) := by
  decide

/-- Claim C1 (amended): for every `Error` of the form
`Error::DatabaseIntegrity` wrapping `DatabaseIntegrityError::Crypto`
wrapping a `CryptoError`, the causal-chain accessor yields exactly two
traversable causes when the `CryptoError` is an `Argon2`,
`InvalidKeyIvLength` or `BlockMode` variant, and exactly one cause when it
is an `InvalidKeyLength` or `InvalidKeyNonceLength` variant (whose own
`source` is `None`); in every case the chain terminates at a leaf whose
`source` is `None`. -/
theorem claim_C1 (c : CryptoError) :
    (Error.DatabaseIntegrity (DatabaseIntegrityError.Crypto c)).causeCount =
      (match c with
        | .Argon2 _ => 2
        | .InvalidKeyIvLength _ => 2
        | .BlockMode _ => 2
        | .InvalidKeyLength _ => 1
        | .InvalidKeyNonceLength _ => 1) ∧
    (match (Error.DatabaseIntegrity (DatabaseIntegrityError.Crypto c)).causeChain.getLast? with
      | some d => d.sourceDyn = none
      | none => False) := by
  cases c <;> exact ⟨rfl, rfl⟩

/-- Claim C2: for every subordinate failure value with a defined `From`
conversion (argon2, invalid-key-length, invalid-key/IV-length,
invalid-key/nonce-length, block-mode, XML, base64, UTF-8, IO), converting
it into the next tier and rendering the result with `Display` yields
non-empty text that contains the subordinate value's own rendered
diagnostic content. -/
theorem claim_C2 :
    (∀ e : Argon2Error, (CryptoError.fromArgon2Error e).display ≠ "" ∧
      strContains (CryptoError.fromArgon2Error e).display e.displayText = true) ∧
    (∀ e : HmacInvalidKeyLength, (CryptoError.fromInvalidKeyLength e).display ≠ "" ∧
      strContains (CryptoError.fromInvalidKeyLength e).display e.displayText = true) ∧
    (∀ e : BlockModesInvalidKeyIvLength, (CryptoError.fromInvalidKeyIvLength e).display ≠ "" ∧
      strContains (CryptoError.fromInvalidKeyIvLength e).display e.displayText = true) ∧
    (∀ e : StreamCipherInvalidKeyNonceLength, (CryptoError.fromInvalidKeyNonceLength e).display ≠ "" ∧
      strContains (CryptoError.fromInvalidKeyNonceLength e).display e.displayText = true) ∧
    (∀ e : BlockModesBlockModeError, (CryptoError.fromBlockModeError e).display ≠ "" ∧
      strContains (CryptoError.fromBlockModeError e).display e.displayText = true) ∧
    (∀ e : XmlReaderError, (DatabaseIntegrityError.fromXmlReaderError e).display ≠ "" ∧
      strContains (DatabaseIntegrityError.fromXmlReaderError e).display e.displayText = true) ∧
    (∀ e : Base64DecodeError, (DatabaseIntegrityError.fromBase64DecodeError e).display ≠ "" ∧
      strContains (DatabaseIntegrityError.fromBase64DecodeError e).display e.displayText = true) ∧
    (∀ e : Utf8Error, (DatabaseIntegrityError.fromUtf8Error e).display ≠ "" ∧
      strContains (DatabaseIntegrityError.fromUtf8Error e).display e.displayText = true) ∧
    (∀ e : IoError, (Error.fromIoError e).display ≠ "" ∧
      strContains (Error.fromIoError e).display e.displayText = true) := by
  refine ⟨?_, ?_, ?_, ?_, ?_, ?_, ?_, ?_, ?_⟩ <;>
    exact fun e =>
      ⟨append_ne_empty_left _ _ (by decide), strContains_two_left _ _ _⟩

/-- Claim C3: each tier-lifting conversion is total, maps each lower-tier
value to exactly one higher-tier variant carrying the original value
unchanged, and is injective (distinct inputs never map to the same
output). -/
theorem claim_C3 :
    (∀ c : CryptoError,
      DatabaseIntegrityError.fromCryptoError c = DatabaseIntegrityError.Crypto c) ∧
    (∀ c₁ c₂ : CryptoError,
      DatabaseIntegrityError.fromCryptoError c₁ = DatabaseIntegrityError.fromCryptoError c₂ →
        c₁ = c₂) ∧
    (∀ d : DatabaseIntegrityError,
      Error.fromDatabaseIntegrityError d = Error.DatabaseIntegrity d) ∧
    (∀ d₁ d₂ : DatabaseIntegrityError,
      Error.fromDatabaseIntegrityError d₁ = Error.fromDatabaseIntegrityError d₂ →
        d₁ = d₂) := by
  refine ⟨fun c => rfl, ?_, fun d => rfl, ?_⟩
  · intro c₁ c₂ h
    simpa [DatabaseIntegrityError.fromCryptoError] using h
  · intro d₁ d₂ h
    simpa [Error.fromDatabaseIntegrityError] using h

/-- Claim C3 witness: the injectivity parts of the claim applied at
concrete inputs, their equality hypotheses discharged by `rfl`. -/
theorem claim_C3_witness :
    CryptoError.Argon2 ⟨"argon2 salt too short", "SaltTooShort"⟩ =
      CryptoError.Argon2 ⟨"argon2 salt too short", "SaltTooShort"⟩ ∧
    DatabaseIntegrityError.Compression = DatabaseIntegrityError.Compression :=
  ⟨claim_C3.2.1 _ _ rfl, claim_C3.2.2.2 _ _ rfl⟩

/-- Claim C4: widening a `CryptoError` into `DatabaseIntegrityError` and
then into `Error` renders identically to constructing
`Error::DatabaseIntegrity` around `DatabaseIntegrityError::Crypto`
directly. -/
theorem claim_C4 (c : CryptoError) :
    (Error.fromDatabaseIntegrityError (DatabaseIntegrityError.fromCryptoError c)).display =
      (Error.DatabaseIntegrity (DatabaseIntegrityError.Crypto c)).display :=
  rfl

/-- Claim C5, counterexample: for `InvalidKDBXVersion` with requested
version 10, the rendered text does not contain the decimal form of 10
verbatim — the `Display` arm formats the requested version with the
lowercase-hexadecimal `\x7b:0x\x7d` directive, rendering it as the single
letter a. -/
theorem claim_C5_counterexample :
    strContains (DatabaseIntegrityError.InvalidKDBXVersion 10 3 1).display
      (toString (10 : Nat)) = false := by
  decide

/-- Claim C5 (amended): for every `DatabaseIntegrityError` variant
carrying a context field, the rendered form of that field appears in the
`Display` text: string fields verbatim, numeric fields in decimal
verbatim, identifier byte vectors in hexadecimal list form — except that
for `InvalidKDBXVersion` the requested version appears in lowercase
hexadecimal form while the file-declared major and minor version numbers
appear verbatim in decimal. -/
theorem claim_C5 :
    (∀ i : Nat,
      strContains (DatabaseIntegrityError.BlockHashMismatch i).display (toString i) = true) ∧
    (∀ v fmaj fmin : Nat,
      strContains (DatabaseIntegrityError.InvalidKDBXVersion v fmaj fmin).display
        (hexStr v) = true ∧
      strContains (DatabaseIntegrityError.InvalidKDBXVersion v fmaj fmin).display
        (toString fmaj) = true ∧
      strContains (DatabaseIntegrityError.InvalidKDBXVersion v fmaj fmin).display
        (toString fmin) = true) ∧
    (∀ t : Nat,
      strContains (DatabaseIntegrityError.InvalidOuterHeaderEntry t).display (toString t) = true) ∧
    (∀ t : Nat,
      strContains (DatabaseIntegrityError.InvalidInnerHeaderEntry t).display (toString t) = true) ∧
    (∀ f : String,
      strContains (DatabaseIntegrityError.IncompleteOuterHeader f).display f = true) ∧
    (∀ f : String,
      strContains (DatabaseIntegrityError.IncompleteInnerHeader f).display f = true) ∧
    (∀ k : String,
      strContains (DatabaseIntegrityError.MissingKDFParams k).display k = true) ∧
    (∀ k : String,
      strContains (DatabaseIntegrityError.MistypedKDFParam k).display k = true) ∧
    (∀ v : Nat,
      strContains (DatabaseIntegrityError.InvalidKDFVersion v).display (toString v) = true) ∧
    (∀ u : List Nat,
      strContains (DatabaseIntegrityError.InvalidKDFUUID u).display (hexBytesDebug u) = true) ∧
    (∀ cid : List Nat,
      strContains (DatabaseIntegrityError.InvalidOuterCipherID cid).display
        (hexBytesDebug cid) = true) ∧
    (∀ cid : Nat,
      strContains (DatabaseIntegrityError.InvalidInnerCipherID cid).display (toString cid) = true) ∧
    (∀ cid : Nat,
      strContains (DatabaseIntegrityError.InvalidCompressionSuite cid).display
        (toString cid) = true) ∧
    (∀ v : Nat,
      strContains (DatabaseIntegrityError.InvalidVariantDictionaryVersion v).display
        (toString v) = true) ∧
    (∀ t : Nat,
      strContains (DatabaseIntegrityError.InvalidVariantDictionaryValueType t).display
        (toString t) = true) := by
  refine ⟨fun i => strContains_two_left _ _ _, fun v fmaj fmin => ⟨?_, ?_, ?_⟩,
    fun t => strContains_two_left _ _ _, fun t => strContains_two_left _ _ _,
    fun f => strContains_two_left _ _ _, fun f => strContains_two_left _ _ _,
    fun k => strContains_two_left _ _ _, fun k => ?_,
    fun v => strContains_two_left _ _ _, fun u => strContains_two_left _ _ _,
    fun cid => strContains_two_left _ _ _, fun cid => strContains_two_left _ _ _,
    fun cid => strContains_two_left _ _ _, fun v => strContains_two_left _ _ _,
    fun t => strContains_two_left _ _ _⟩
  · exact strContains_extend_left _ _ _ (strContains_extend_left _ _ _
      (strContains_head _ _))
  · exact strContains_extend_left _ _ _ (strContains_extend_left _ _ _
      (strContains_extend_left _ _ _ (strContains_extend_left _ _ _
        (strContains_head _ _))))
  · exact strContains_extend_left _ _ _ (strContains_extend_left _ _ _
      (strContains_extend_left _ _ _ (strContains_extend_left _ _ _
        (strContains_extend_left _ _ _ (strContains_extend_left _ _ _
          (strContains_head _ _))))))
  · exact strContains_extend_left _ _ _ (strContains_extend_left _ _ _
      (strContains_head _ _))

/-- Claim C6: rendering an error value of any of the three tiers with
`Display` is deterministic — the text depends only on the value (variant
and context fields), so rendering the same value twice yields
byte-identical text. The embedded rendering functions are pure, as is the
source `fmt`, which only reads the matched fields. -/
theorem claim_C6 :
    (∀ e₁ e₂ : Error, e₁ = e₂ → e₁.display = e₂.display) ∧
    (∀ d₁ d₂ : DatabaseIntegrityError, d₁ = d₂ → d₁.display = d₂.display) ∧
    (∀ c₁ c₂ : CryptoError, c₁ = c₂ → c₁.display = c₂.display) :=
  ⟨fun _ _ h => congrArg Error.display h,
   fun _ _ h => congrArg DatabaseIntegrityError.display h,
   fun _ _ h => congrArg CryptoError.display h⟩

/-- Claim C6 witness: the determinism statement applied at a concrete
value of each tier, the equality hypothesis discharged by `rfl`. -/
theorem claim_C6_witness :
    Error.IncorrectKey.display = Error.IncorrectKey.display ∧
    DatabaseIntegrityError.HeaderHashMismatch.display =
      DatabaseIntegrityError.HeaderHashMismatch.display ∧
    (CryptoError.BlockMode ⟨"block mode error", "BlockModeError"⟩).display =
      (CryptoError.BlockMode ⟨"block mode error", "BlockModeError"⟩).display :=
  ⟨claim_C6.1 _ _ rfl, claim_C6.2.1 _ _ rfl, claim_C6.2.2 _ _ rfl⟩

/-- Claim C7: every `CryptoError` variant retains its originating cause,
and `source` exposes that retained cause exactly for the variants whose
cause type implements `std::error::Error` (`Argon2`, `InvalidKeyIvLength`,
`BlockMode`), returning `None` only for the two variants whose cause type
does not (`InvalidKeyLength`, `InvalidKeyNonceLength`). -/
theorem claim_C7 (c : CryptoError) :
    c.sourceDyn.isSome = c.causeImplsStdError ∧
    c.sourceDyn = (match c with
      | .Argon2 e => some (.argon2 e)
      | .InvalidKeyIvLength e => some (.keyIv e)
      | .BlockMode e => some (.blockMode e)
      | .InvalidKeyLength _ => none
      | .InvalidKeyNonceLength _ => none) := by
  cases c <;> exact ⟨rfl, rfl⟩

/-- Claim C8: for every `InvalidOuterCipherID` carrying a 16-byte
identifier, the rendered text contains those bytes in hexadecimal list
form. -/
theorem claim_C8 (cid : List Nat) (_h : cid.length = 16) :
    strContains (DatabaseIntegrityError.InvalidOuterCipherID cid).display
      (hexBytesDebug cid) = true :=
  strContains_two_left _ _ _

/-- Claim C8 witness: the claim applied to a concrete 16-byte cipher
identifier, the length hypothesis discharged by `decide`. -/
theorem claim_C8_witness :
    ([49, 193, 242, 230, 191, 113, 67, 80, 190, 88, 5, 33, 106, 252, 90, 255] : List Nat).length
        = 16 ∧
    strContains
      (DatabaseIntegrityError.InvalidOuterCipherID
        [49, 193, 242, 230, 191, 113, 67, 80, 190, 88, 5, 33, 106, 252, 90, 255]).display
      (hexBytesDebug [49, 193, 242, 230, 191, 113, 67, 80, 190, 88, 5, 33, 106, 252, 90, 255])
        = true :=
  ⟨by decide, claim_C8 _ (by decide)⟩

/-- Claim C9: at the public interface, `Error::source` returns the
wrapped IO cause for `Error::IO`, `None` for `Error::IncorrectKey` and
`Error::InvalidKeyFile`, and for `Error::DatabaseIntegrity` it returns
the wrapped value's own `source` — in particular `None` when the wrapped
integrity variant carries no further cause, such as `Compression`,
`HeaderHashMismatch` or `BlockHashMismatch`. -/
theorem claim_C9 :
    (∀ e : IoError, (Error.Io e).sourceDyn = some (.ioErr e)) ∧
    Error.IncorrectKey.sourceDyn = none ∧
    Error.InvalidKeyFile.sourceDyn = none ∧
    (∀ d : DatabaseIntegrityError, (Error.DatabaseIntegrity d).sourceDyn = d.sourceDyn) ∧
    (Error.DatabaseIntegrity .Compression).sourceDyn = none ∧
    (Error.DatabaseIntegrity .HeaderHashMismatch).sourceDyn = none ∧
    (∀ i : Nat, (Error.DatabaseIntegrity (.BlockHashMismatch i)).sourceDyn = none) :=
  ⟨fun _ => rfl, rfl, rfl, fun _ => rfl, rfl, rfl, fun _ => rfl⟩

/-- Claim C10: every rendered error text is non-empty and begins with its
fixed tier-identifying head: KDBX error for `Error`, Database integrity
error for `DatabaseIntegrityError`, Crypto Error for `CryptoError`. -/
theorem claim_C10 :
    (∀ e : Error, (∃ r, e.display = "KDBX error: " ++ r) ∧ e.display ≠ "") ∧
    (∀ d : DatabaseIntegrityError,
      (∃ r, d.display = "Database integrity error: " ++ r) ∧ d.display ≠ "") ∧
    (∀ c : CryptoError, (∃ r, c.display = "Crypto Error: " ++ r) ∧ c.display ≠ "") := by
  refine ⟨fun e => ⟨⟨e.displayBody, rfl⟩, ?_⟩, fun d => ⟨⟨d.displayBody, rfl⟩, ?_⟩,
    fun c => ⟨⟨c.displayBody, rfl⟩, ?_⟩⟩
  · exact append_ne_empty_left _ _ (by decide)
  · exact append_ne_empty_left _ _ (by decide)
  · exact append_ne_empty_left _ _ (by decide)

end KeepassResult
